import Mathlib

/-!
Verification of the bnGBA Game Boy architecture plugin (`__init__.py`).

The development shallowly embeds the decode / control-flow / token-rendering
engine of the plugin: `GB.perform_get_instruction_info`, `GB.get_token` and
`GB.perform_get_instruction_text`.  Byte strings are `List Nat` (each entry a
byte 0..255), addresses and branch targets are unbounded `Int` (Python
integers), and Python exceptions and the `return None` unknown-opcode path are
modelled with `Except`.
-/

namespace BnGBA

/-- An entry of the unprefixed opcode table (`opcodes.json`): the fields the
plugin reads are `mnemonic`, `length`, and the optional `operand1`/`operand2`
descriptor strings. -/
structure OpcodeEntry where
  mnemonic : String
  length : Nat
  operand1 : Option String
  operand2 : Option String
deriving DecidableEq, Repr

/-- The kinds of branch the plugin emits via `InstructionInfo.add_branch`. -/
inductive BranchKind where
  | TrueBranch
  | FalseBranch
  | UnconditionalBranch
  | FunctionReturn
  | CallDestination
deriving DecidableEq, Repr

/-- One emitted branch edge: a kind and, when `add_branch` was given one, a
target (a plain Python integer, possibly negative or above 0xffff). -/
structure Branch where
  kind : BranchKind
  target : Option Int
deriving DecidableEq, Repr

/-- The result the plugin builds in `perform_get_instruction_info`: the
`length` taken from the table entry and the branch edges in emission order. -/
structure InstructionInfo where
  length : Nat
  branches : List Branch
deriving DecidableEq, Repr

/-- The failure modes of the embedded functions: a Python `IndexError`
(indexing an empty string), a `struct.error` (unpacking a slice of the wrong
size), and the `return None` path taken on a `KeyError` from the opcode-table
lookup, which is the plugin's unknown-opcode signal. -/
inductive Err where
  | IndexError
  | StructError
  | UnknownOpcode (opcode : Nat)
deriving DecidableEq, Repr

/-- Python string indexing `s[i]` followed by `struct.unpack("<B", ...)` of the
single character: an `IndexError` when the index is out of range. -/
def pyIndex (s : List Nat) (i : Nat) : Except Err Nat :=
  match s.get? i with
  | some b => .ok b
  | none => .error .IndexError

/-- Python slice `s[i:j]` (with `0 ≤ i ≤ j`): drop `i` bytes, keep `j - i`. -/
def pySlice (s : List Nat) (i j : Nat) : List Nat :=
  (s.drop i).take (j - i)

/-- Model of `struct.unpack("<B", s)`: demands exactly one byte and returns it;
otherwise `struct.error`. -/
def unpack_B (s : List Nat) : Except Err Nat :=
  match s with
  | [b] => .ok b
  | _ => .error .StructError

/-- Model of `struct.unpack("<H", s)`: demands exactly two bytes and returns the
little-endian 16-bit word; otherwise `struct.error`. -/
def unpack_H (s : List Nat) : Except Err Nat :=
  match s with
  | [b0, b1] => .ok (b0 + 256 * b1)
  | _ => .error .StructError

/-- Python `~arg & 0xff` for an integer `arg`: bitwise complement is
`-arg - 1`, and `& 0xff` of a (possibly negative) integer is its
least non-negative residue mod 256. -/
def pyNotAnd0xff (arg : Nat) : Int :=
  (-(arg : Int) - 1) % 256

/-- The relative-jump target expression of lines 66 and 68 of the source:
`addr - (~arg & 0xff) + 1`. -/
def jrTarget (addr : Int) (arg : Nat) : Int :=
  addr - pyNotAnd0xff arg + 1

/-- Embedding of `GB.perform_get_instruction_info(data, addr)`, parametrised by the opcode
table (the source looks entries up by the hex string `"0x%x" % opcode`, an
injective keying that we compose into a `Nat`-indexed partial map). -/
def perform_get_instruction_info (opcodes : Nat → Option OpcodeEntry)
    (data : List Nat) (addr : Int) : Except Err InstructionInfo :=
  match pyIndex data 0 with
  | .error e => .error e
  | .ok opcode =>
    match opcodes opcode with
    | none => .error (.UnknownOpcode opcode)
    | some op_info =>
      if op_info.mnemonic = "JR" then
        match unpack_B (pySlice data 1 2) with
        | .error e => .error e
        | .ok arg =>
          if opcode = 0x28 ∨ opcode = 0x38 then
            .ok ⟨op_info.length,
              [⟨.TrueBranch, some (addr + 2 + (arg : Int))⟩,
               ⟨.FalseBranch, some (addr + 2)⟩]⟩
          else if opcode = 0x20 ∨ opcode = 0x30 then
            .ok ⟨op_info.length,
              [⟨.TrueBranch, some (addr + 2)⟩,
               ⟨.FalseBranch, some (jrTarget addr arg)⟩]⟩
          else
            .ok ⟨op_info.length, [⟨.UnconditionalBranch, some (jrTarget addr arg)⟩]⟩
      else if op_info.mnemonic = "JP" then
        if opcode = 0xe9 then
          .ok ⟨op_info.length, [⟨.UnconditionalBranch, some 0xdead⟩]⟩
        else
          match unpack_H (pySlice data 1 3) with
          | .error e => .error e
          | .ok arg =>
            if opcode = 0xca ∨ opcode = 0xda then
              .ok ⟨op_info.length,
                [⟨.TrueBranch, some (arg : Int)⟩,
                 ⟨.FalseBranch, some (addr + 3)⟩]⟩
            else if opcode = 0xc0 ∨ opcode = 0xd0 then
              .ok ⟨op_info.length,
                [⟨.TrueBranch, some (addr + 3)⟩,
                 ⟨.FalseBranch, some (arg : Int)⟩]⟩
            else
              .ok ⟨op_info.length, [⟨.UnconditionalBranch, some (arg : Int)⟩]⟩
      else if op_info.mnemonic = "RET" then
        .ok ⟨op_info.length, [⟨.FunctionReturn, none⟩]⟩
      else if op_info.mnemonic = "CALL" then
        match unpack_H (pySlice data 1 3) with
        | .error e => .error e
        | .ok arg => .ok ⟨op_info.length, [⟨.CallDestination, some (arg : Int)⟩]⟩
      else
        .ok ⟨op_info.length, []⟩

/-- Modelled from the spec: a fragment of the unprefixed opcode table
`opcodes.json` (the data file is not part of the analysed sources).  Entries
follow the spec's table format (mnemonic, length 1..3, optional operand
descriptor tags such as "d8", "r8", "a16", "(a8)" or register/flag names) for
the opcodes the spec discusses; opcodes outside the fragment, among them the
genuinely invalid 0xd3, map to nothing. -/
def sampleOpcodes : Nat → Option OpcodeEntry := fun opcode =>
  if opcode = 0x06 then some ⟨"LD", 2, some ("B"), some ("d8")⟩
  else if opcode = 0x18 then some ⟨"JR", 2, some ("r8"), none⟩
  else if opcode = 0x20 then some ⟨"JR", 2, some ("NZ"), some ("r8")⟩
  else if opcode = 0x28 then some ⟨"JR", 2, some ("Z"), some ("r8")⟩
  else if opcode = 0x30 then some ⟨"JR", 2, some ("NC"), some ("r8")⟩
  else if opcode = 0x38 then some ⟨"JR", 2, some ("C"), some ("r8")⟩
  else if opcode = 0xc3 then some ⟨"JP", 3, some ("a16"), none⟩
  else if opcode = 0xc9 then some ⟨"RET", 1, none, none⟩
  else if opcode = 0xca then some ⟨"JP", 3, some ("Z"), some ("a16")⟩
  else if opcode = 0xcd then some ⟨"CALL", 3, some ("a16"), none⟩
  else if opcode = 0xda then some ⟨"JP", 3, some ("C"), some ("a16")⟩
  else if opcode = 0xe0 then some ⟨"LDH", 2, some ("(a8)"), some ("A")⟩
  else if opcode = 0xe9 then some ⟨"JP", 1, some ("(HL)"), none⟩
  else none

/-- Does `pat` occur as an initial segment of `s`?  (Anchored matching of a
literal alternative, as `re.match` does for each branch of its pattern.) -/
def startsWithL : List Char → List Char → Bool
  | [], _ => true
  | _ :: _, [] => false
  | p :: ps, c :: cs => p = c && startsWithL ps cs

/-- Does `pat` occur as a contiguous substring of `s`?  (Unanchored search of a
literal alternative, as `re.search` does for each branch of its pattern.) -/
def listHasSub (pat : List Char) : List Char → Bool
  | [] => pat.isEmpty
  | c :: cs => startsWithL pat (c :: cs) || listHasSub pat cs

/-- The test `re.search(r"(d|r|a)8", operand)`: one of the substrings "d8", "r8", "a8"
occurs somewhere in the operand descriptor. -/
def searchDRA8 (operand : String) : Bool :=
  listHasSub ['d', '8'] operand.data || listHasSub ['r', '8'] operand.data ||
    listHasSub ['a', '8'] operand.data

/-- The test `re.match(r"(d|r|a)8", operand)`: the descriptor starts with "d8", "r8" or
"a8". -/
def matchDRA8 (operand : String) : Bool :=
  startsWithL ['d', '8'] operand.data || startsWithL ['r', '8'] operand.data ||
    startsWithL ['a', '8'] operand.data

/-- The test `re.search(r"(d|r|a)16", operand)`. -/
def searchDRA16 (operand : String) : Bool :=
  listHasSub ['d', '1', '6'] operand.data || listHasSub ['r', '1', '6'] operand.data ||
    listHasSub ['a', '1', '6'] operand.data

/-- The test `re.match(r"(d|r|a)16", operand)`. -/
def matchDRA16 (operand : String) : Bool :=
  startsWithL ['d', '1', '6'] operand.data || startsWithL ['r', '1', '6'] operand.data ||
    startsWithL ['a', '1', '6'] operand.data

/-- The test `re.search(r"A|B|C|D|E|F|H|L|(SP)|(PC)", operand)`. -/
def searchReg (operand : String) : Bool :=
  (["A", "B", "C", "D", "E", "F", "H", "L", "SP", "PC"]).any
    (fun p => listHasSub p.data operand.data)

/-- The test `re.match(r"A|B|C|D|E|F|H|L|(SP)|(PC)", operand)`. -/
def matchReg (operand : String) : Bool :=
  (["A", "B", "C", "D", "E", "F", "H", "L", "SP", "PC"]).any
    (fun p => startsWithL p.data operand.data)

/-- Python `"%.2x" % n` and `"%.4x" % n`: lowercase hex digits of `n`,
zero-padded on the left to at least `width` digits. -/
def pyHexPad (width n : Nat) : String :=
  let ds := Nat.toDigits 16 n
  ⟨List.replicate (width - ds.length) '0' ++ ds⟩

/-- Python `s.lower()`: lowercase every character. -/
def pyLower (s : String) : String :=
  ⟨s.data.map Char.toLower⟩

/-- The `InstructionTextToken` kinds the plugin uses. -/
inductive TokenKind where
  | InstructionToken
  | OperandSeparatorToken
  | IntegerToken
  | PossibleAddressToken
  | RegisterToken
deriving DecidableEq, Repr

/-- One rendered token: kind, display text, and the numeric value passed to
`InstructionTextToken` when the plugin supplies one. -/
structure Token where
  kind : TokenKind
  text : String
  value : Option Nat
deriving DecidableEq, Repr

/-- Embedding of `GB.get_token(operand, data)`: classify an operand descriptor by regex and
build its display token (reading the operand bytes from `data`). -/
def get_token (operand : String) (data : List Nat) : Except Err Token :=
  if searchDRA8 operand then
    match pyIndex data 1 with
    | .error e => .error e
    | .ok value =>
      if matchDRA8 operand then
        .ok ⟨.IntegerToken, "0x" ++ pyHexPad 2 value, some value⟩
      else
        .ok ⟨.PossibleAddressToken, "0x" ++ pyHexPad 4 value, some value⟩
  else if searchDRA16 operand then
    match unpack_H (pySlice data 1 3) with
    | .error e => .error e
    | .ok value =>
      if matchDRA16 operand then
        .ok ⟨.IntegerToken, "0x" ++ pyHexPad 4 value, some value⟩
      else
        .ok ⟨.PossibleAddressToken, "0x" ++ pyHexPad 4 value, some value⟩
  else if searchReg operand then
    if matchReg operand then
      .ok ⟨.RegisterToken, pyLower operand, none⟩
    else
      .ok ⟨.RegisterToken, pyLower operand, none⟩
  else
    .ok ⟨.RegisterToken, pyLower operand, none⟩

/-- Embedding of `GB.perform_get_instruction_text(data, addr)`: the mnemonic token, then
separator and operand tokens for each operand present in the table entry,
paired with the entry's length. -/
def perform_get_instruction_text (opcodes : Nat → Option OpcodeEntry)
    (data : List Nat) (addr : Int) : Except Err (List Token × Nat) :=
  match pyIndex data 0 with
  | .error e => .error e
  | .ok opcode =>
    match opcodes opcode with
    | none => .error (.UnknownOpcode opcode)
    | some op_info =>
      let tokens : List Token := [⟨.InstructionToken, pyLower op_info.mnemonic, none⟩]
      match op_info.operand1 with
      | none => .ok (tokens, op_info.length)
      | some op1 =>
        match get_token op1 data with
        | .error e => .error e
        | .ok t1 =>
          let tokens := tokens ++ [⟨.OperandSeparatorToken, "    ", none⟩, t1]
          match op_info.operand2 with
          | none => .ok (tokens, op_info.length)
          | some op2 =>
            match get_token op2 data with
            | .error e => .error e
            | .ok t2 =>
              .ok (tokens ++ [⟨.OperandSeparatorToken, ", ", none⟩, t2], op_info.length)

/-- Modelled from the spec: a hypothetical table fragment that maps the
opcodes 0xc0 and 0xd0 to absolute-jump entries, realising the spec's "second
conditional pair" dispatch (in the real table those opcodes carry the return
mnemonic, so the corresponding arm of the resolver is only reachable under a
table of this shape). -/
def hypJpOpcodes : Nat → Option OpcodeEntry := fun opcode =>
  if opcode = 0xc0 then some ⟨"JP", 3, none, none⟩
  else if opcode = 0xd0 then some ⟨"JP", 3, none, none⟩
  else none

/-- Modelled from the spec: `sign_extend_8` interprets a byte as a signed
8-bit value, mapping `arg` to `arg` when `arg < 0x80` and to `arg - 256`
otherwise.  (The spec's reference function for the relative-jump target;
it has no counterpart in the source.) -/
def sign_extend_8 (arg : Nat) : Int :=
  if arg < 0x80 then (arg : Int) else (arg : Int) - 256

example : perform_get_instruction_info sampleOpcodes [0xe9] 0 =
    .ok ⟨1, [⟨.UnconditionalBranch, some 0xdead⟩]⟩ := rfl

example : perform_get_instruction_info sampleOpcodes [0x18, 0xFE] 0x0200 =
    .ok ⟨2, [⟨.UnconditionalBranch, some 0x0200⟩]⟩ := rfl

example : perform_get_instruction_info sampleOpcodes [0x18, 0x01] 0x0200 =
    .ok ⟨2, [⟨.UnconditionalBranch, some 259⟩]⟩ := rfl

example : perform_get_instruction_info sampleOpcodes [0x06] 0 = .ok ⟨2, []⟩ := rfl

example : perform_get_instruction_info sampleOpcodes [0x18] 0 = .error .StructError := rfl

example : perform_get_instruction_info sampleOpcodes [0xd3] 0 =
    .error (.UnknownOpcode 0xd3) := rfl

example : perform_get_instruction_info sampleOpcodes [0xc9] 0 =
    .ok ⟨1, [⟨.FunctionReturn, none⟩]⟩ := rfl

example : perform_get_instruction_info sampleOpcodes [0xcd, 0x34, 0x12] 7 =
    .ok ⟨3, [⟨.CallDestination, some 0x1234⟩]⟩ := rfl

example : get_token ("d8") [0x06, 0x2a] = .ok ⟨.IntegerToken, "0x2a", some 0x2a⟩ := rfl

example : get_token ("(a8)") [0xe0, 0x47] =
    .ok ⟨.PossibleAddressToken, "0x0047", some 0x47⟩ := rfl

example : get_token ("a16") [0xc3, 0x34, 0x12] =
    .ok ⟨.IntegerToken, "0x1234", some 0x1234⟩ := rfl

example : get_token ("(a16)") [0xea, 0x34, 0x12] =
    .ok ⟨.PossibleAddressToken, "0x1234", some 0x1234⟩ := rfl

example : get_token ("B") [0x06, 0x2a] = .ok ⟨.RegisterToken, "b", none⟩ := rfl

example : get_token ("NZ") [0x20, 0x2a] = .ok ⟨.RegisterToken, "nz", none⟩ := rfl

example : perform_get_instruction_text sampleOpcodes [0x06, 0x2a] 0 =
    .ok ([⟨.InstructionToken, "ld", none⟩,
          ⟨.OperandSeparatorToken, "    ", none⟩,
          ⟨.RegisterToken, "b", none⟩,
          ⟨.OperandSeparatorToken, ", ", none⟩,
          ⟨.IntegerToken, "0x2a", some 0x2a⟩], 2) := rfl

example : perform_get_instruction_text sampleOpcodes [0xc9] 0 =
    .ok ([⟨.InstructionToken, "ret", none⟩], 1) := rfl

/-- Helper: a successful `unpack_B` of the slice `data[1:2]` returns a byte of
`data`. -/
theorem unpack_B_pySlice_mem (data : List Nat) (arg : Nat)
    (h : unpack_B (pySlice data 1 2) = .ok arg) : arg ∈ data := by
  match data with
  | [] => exact absurd h (by simp [pySlice, unpack_B])
  | [_] => exact absurd h (by simp [pySlice, unpack_B])
  | op :: a :: rest =>
    have hs : unpack_B (pySlice (op :: a :: rest) 1 2) = .ok a := rfl
    rw [hs] at h
    injection h with h
    subst h
    simp

/-- Helper: a successful `unpack_H` of the slice `data[1:3]` is bounded by
65535 when `data` holds bytes. -/
theorem unpack_H_pySlice_bound (data : List Nat) (v : Nat)
    (hd : ∀ b ∈ data, b < 256) (h : unpack_H (pySlice data 1 3) = .ok v) :
    v < 65536 := by
  match data with
  | [] => exact absurd h (by simp [pySlice, unpack_H])
  | [_] => exact absurd h (by simp [pySlice, unpack_H])
  | [_, _] => exact absurd h (by simp [pySlice, unpack_H])
  | op :: a :: b :: rest =>
    have hs : unpack_H (pySlice (op :: a :: b :: rest) 1 3) = .ok (a + 256 * b) := rfl
    rw [hs] at h
    injection h with h
    have ha : a < 256 := hd a (by simp)
    have hb : b < 256 := hd b (by simp)
    omega

/-- C1: the claim asks for exactly one `IndirectUnresolved` edge and no
fabricated numeric target on the register-indirect absolute jump (0xe9); the
code instead emits exactly one `UnconditionalBranch` edge carrying the
fabricated placeholder target 0xdead, at every address. -/
theorem c1_jp_indirect_fabricates_dead (addr : Int) :
    perform_get_instruction_info sampleOpcodes [0xe9] addr =
      .ok ⟨1, [⟨.UnconditionalBranch, some 0xdead⟩]⟩ :=
  rfl

/-- C2: the claim asks every short byte slice to fail with
`TruncatedInstruction`; the code has no bounds check at all: on opcode 0x06
(table length 2) with a single byte it succeeds with length 2 and no branches,
and on opcode 0x18 (JR, table length 2) with a single byte it raises an
uncaught `struct.error` rather than a truncation failure. -/
theorem c2_no_truncation_check :
    perform_get_instruction_info sampleOpcodes [0x06] 0 = .ok ⟨2, []⟩ ∧
    perform_get_instruction_info sampleOpcodes [0x18] 0 = .error .StructError :=
  ⟨rfl, rfl⟩

/-- C3 (counterexample): at address 0x0200 with displacement byte 0x01 the
code's relative-jump target expression `addr - (NOT(arg) & 0xff) + 1` yields
259, while `addr + 2 + sign_extend_8(arg)` yields 515: the claimed identity
fails for displacement bytes below 0x80. -/
theorem c3_formula_counterexample :
    jrTarget 0x0200 0x01 ≠ 0x0200 + 2 + sign_extend_8 0x01 := by
  decide

/-- C3 (amended): for every address and displacement byte, the code's target
expression equals `addr + 2 + sign_extend_8(arg)` minus a spurious 256 when
`arg < 0x80`, and the claimed identity holds exactly when `0x80 ≤ arg`
(negative displacements). -/
theorem c3_jr_formula (addr : Int) (arg : Nat) (h : arg < 256) :
    jrTarget addr arg =
      addr + 2 + sign_extend_8 arg - (if arg < 0x80 then 256 else 0) ∧
    (jrTarget addr arg = addr + 2 + sign_extend_8 arg ↔ 0x80 ≤ arg) := by
  unfold jrTarget pyNotAnd0xff sign_extend_8
  constructor
  · split_ifs <;> omega
  · constructor
    · intro heq
      by_contra hlt
      rw [if_pos (by omega)] at heq
      omega
    · intro hge
      rw [if_neg (by omega)]
      omega

/-- C3 (witness): the amended statement instantiated at address 0x0200 and
displacement byte 0xFE. -/
theorem c3_jr_formula_witness :
    (jrTarget 0x0200 0xFE =
      0x0200 + 2 + sign_extend_8 0xFE - (if (0xFE : Nat) < 0x80 then 256 else 0)) ∧
    (jrTarget 0x0200 0xFE = 0x0200 + 2 + sign_extend_8 0xFE ↔ 0x80 ≤ (0xFE : Nat)) :=
  c3_jr_formula 0x0200 0xFE (by decide)

/-- C4: the unconditional relative jump (opcode 0x18) always produces exactly
one `UnconditionalBranch` edge with target `addr - (NOT(arg) & 0xff) + 1`,
and in particular displacement byte 0xFE at address 0x0200 targets 0x0200. -/
theorem c4_jr_unconditional (addr : Int) (arg : Nat) (rest : List Nat) :
    perform_get_instruction_info sampleOpcodes (0x18 :: arg :: rest) addr =
      .ok ⟨2, [⟨.UnconditionalBranch, some (jrTarget addr arg)⟩]⟩ ∧
    perform_get_instruction_info sampleOpcodes [0x18, 0xFE] 0x0200 =
      .ok ⟨2, [⟨.UnconditionalBranch, some 0x0200⟩]⟩ :=
  ⟨rfl, rfl⟩

/-- C5: the flag-set conditional relative jumps (0x28, 0x38) produce exactly
`TrueBranch(addr + 2 + arg)` then `FalseBranch(addr + 2)`, and the
complementary-condition ones (0x20, 0x30) produce exactly
`TrueBranch(addr + 2)` then `FalseBranch(addr - (NOT(arg) & 0xff) + 1)`. -/
theorem c5_jr_conditional (addr : Int) (arg : Nat) (rest : List Nat) :
    perform_get_instruction_info sampleOpcodes (0x28 :: arg :: rest) addr =
      .ok ⟨2, [⟨.TrueBranch, some (addr + 2 + (arg : Int))⟩,
               ⟨.FalseBranch, some (addr + 2)⟩]⟩ ∧
    perform_get_instruction_info sampleOpcodes (0x38 :: arg :: rest) addr =
      .ok ⟨2, [⟨.TrueBranch, some (addr + 2 + (arg : Int))⟩,
               ⟨.FalseBranch, some (addr + 2)⟩]⟩ ∧
    perform_get_instruction_info sampleOpcodes (0x20 :: arg :: rest) addr =
      .ok ⟨2, [⟨.TrueBranch, some (addr + 2)⟩,
               ⟨.FalseBranch, some (jrTarget addr arg)⟩]⟩ ∧
    perform_get_instruction_info sampleOpcodes (0x30 :: arg :: rest) addr =
      .ok ⟨2, [⟨.TrueBranch, some (addr + 2)⟩,
               ⟨.FalseBranch, some (jrTarget addr arg)⟩]⟩ :=
  ⟨rfl, rfl, rfl, rfl⟩

/-- C7: an opcode byte with no table entry makes
`perform_get_instruction_info` fail with the unknown-opcode signal (the
source's `return None` on `KeyError`), with no instruction produced, and the
failure is the whole returned value. -/
theorem c7_unknown_opcode (opcodes : Nat → Option OpcodeEntry) (op : Nat)
    (rest : List Nat) (addr : Int) (h : opcodes op = none) :
    perform_get_instruction_info opcodes (op :: rest) addr =
      .error (.UnknownOpcode op) := by
  unfold perform_get_instruction_info
  rw [show pyIndex (op :: rest) 0 = .ok op from rfl]
  simp only [h]

/-- C7 (witness): the invalid opcode 0xd3 has no table entry and decodes to
the unknown-opcode failure. -/
theorem c7_unknown_opcode_witness :
    perform_get_instruction_info sampleOpcodes [0xd3] 0 =
      .error (.UnknownOpcode 0xd3) :=
  c7_unknown_opcode sampleOpcodes 0xd3 [] 0 rfl

/-- C6: under a table entry with the absolute-jump mnemonic, opcodes 0xca and
0xda produce exactly `TrueBranch(arg16)` then `FalseBranch(addr + 3)`; opcodes
0xc0 and 0xd0 produce exactly `TrueBranch(addr + 3)` then
`FalseBranch(arg16)`; and every other opcode except the register-indirect
0xe9 produces exactly one `UnconditionalBranch(arg16)` edge, where `arg16` is
the little-endian word of the two operand bytes. -/
theorem c6_jp_absolute (opcodes : Nat → Option OpcodeEntry) (len : Nat)
    (o1 o2 : Option String) (op : Nat) (addr : Int) (b1 b2 : Nat)
    (rest : List Nat) (hop : opcodes op = some ⟨"JP", len, o1, o2⟩) :
    (op = 0xca ∨ op = 0xda →
      perform_get_instruction_info opcodes (op :: b1 :: b2 :: rest) addr =
        .ok ⟨len, [⟨.TrueBranch, some ((b1 + 256 * b2 : Nat) : Int)⟩,
                   ⟨.FalseBranch, some (addr + 3)⟩]⟩) ∧
    (op = 0xc0 ∨ op = 0xd0 →
      perform_get_instruction_info opcodes (op :: b1 :: b2 :: rest) addr =
        .ok ⟨len, [⟨.TrueBranch, some (addr + 3)⟩,
                   ⟨.FalseBranch, some ((b1 + 256 * b2 : Nat) : Int)⟩]⟩) ∧
    (op ≠ 0xe9 → op ≠ 0xca → op ≠ 0xda → op ≠ 0xc0 → op ≠ 0xd0 →
      perform_get_instruction_info opcodes (op :: b1 :: b2 :: rest) addr =
        .ok ⟨len, [⟨.UnconditionalBranch, some ((b1 + 256 * b2 : Nat) : Int)⟩]⟩) := by
  refine ⟨?_, ?_, ?_⟩
  · rintro (rfl | rfl) <;>
    · unfold perform_get_instruction_info
      rw [show ∀ x : Nat, pyIndex (x :: b1 :: b2 :: rest) 0 = .ok x from fun _ => rfl]
      rw [show ∀ x : Nat,
            unpack_H (pySlice (x :: b1 :: b2 :: rest) 1 3) = .ok (b1 + 256 * b2) from
          fun _ => rfl]
      simp [hop]
  · rintro (rfl | rfl) <;>
    · unfold perform_get_instruction_info
      rw [show ∀ x : Nat, pyIndex (x :: b1 :: b2 :: rest) 0 = .ok x from fun _ => rfl]
      rw [show ∀ x : Nat,
            unpack_H (pySlice (x :: b1 :: b2 :: rest) 1 3) = .ok (b1 + 256 * b2) from
          fun _ => rfl]
      simp [hop]
  · intro h1 h2 h3 h4 h5
    unfold perform_get_instruction_info
    rw [show ∀ x : Nat, pyIndex (x :: b1 :: b2 :: rest) 0 = .ok x from fun _ => rfl]
    rw [show ∀ x : Nat,
          unpack_H (pySlice (x :: b1 :: b2 :: rest) 1 3) = .ok (b1 + 256 * b2) from
        fun _ => rfl]
    simp [hop, h1, h2, h3, h4, h5]

/-- C6 (witness): the conditional pair at 0xca under the real table fragment,
the 0xc0 arm under the hypothetical table that maps 0xc0 to an absolute-jump
entry, and the unconditional 0xc3 under the real table fragment. -/
theorem c6_jp_absolute_witness :
    perform_get_instruction_info sampleOpcodes [0xca, 0x34, 0x12] 0x100 =
      .ok ⟨3, [⟨.TrueBranch, some 0x1234⟩, ⟨.FalseBranch, some 0x103⟩]⟩ ∧
    perform_get_instruction_info hypJpOpcodes [0xc0, 0x34, 0x12] 0x100 =
      .ok ⟨3, [⟨.TrueBranch, some 0x103⟩, ⟨.FalseBranch, some 0x1234⟩]⟩ ∧
    perform_get_instruction_info sampleOpcodes [0xc3, 0x34, 0x12] 0x100 =
      .ok ⟨3, [⟨.UnconditionalBranch, some 0x1234⟩]⟩ :=
  ⟨(c6_jp_absolute sampleOpcodes 3 (some ("Z")) (some ("a16")) 0xca 0x100 0x34 0x12 []
      rfl).1 (Or.inl rfl),
   (c6_jp_absolute hypJpOpcodes 3 none none 0xc0 0x100 0x34 0x12 []
      rfl).2.1 (Or.inl rfl),
   (c6_jp_absolute sampleOpcodes 3 (some ("a16")) none 0xc3 0x100 0x34 0x12 []
      rfl).2.2 (by decide) (by decide) (by decide) (by decide) (by decide)⟩

/-- C9: the token renderer first emits the lower-cased mnemonic token; when a
first operand descriptor is present it then emits a four-space separator token
and the first operand's token; when a second is also present, a comma-space
separator token and the second operand's token; and nothing else. -/
theorem c9_token_layout (opcodes : Nat → Option OpcodeEntry) (mn : String)
    (len : Nat) (o1 o2 : Option String) (op : Nat) (rest : List Nat)
    (addr : Int) (hop : opcodes op = some ⟨mn, len, o1, o2⟩) :
    (o1 = none →
      perform_get_instruction_text opcodes (op :: rest) addr =
        .ok ([⟨.InstructionToken, pyLower mn, none⟩], len)) ∧
    (∀ s1 t1, o1 = some s1 → o2 = none → get_token s1 (op :: rest) = .ok t1 →
      perform_get_instruction_text opcodes (op :: rest) addr =
        .ok ([⟨.InstructionToken, pyLower mn, none⟩,
              ⟨.OperandSeparatorToken, "    ", none⟩, t1], len)) ∧
    (∀ s1 s2 t1 t2, o1 = some s1 → o2 = some s2 →
      get_token s1 (op :: rest) = .ok t1 → get_token s2 (op :: rest) = .ok t2 →
      perform_get_instruction_text opcodes (op :: rest) addr =
        .ok ([⟨.InstructionToken, pyLower mn, none⟩,
              ⟨.OperandSeparatorToken, "    ", none⟩, t1,
              ⟨.OperandSeparatorToken, ", ", none⟩, t2], len)) := by
  refine ⟨?_, ?_, ?_⟩
  · rintro rfl
    unfold perform_get_instruction_text
    rw [show pyIndex (op :: rest) 0 = .ok op from rfl]
    simp [hop]
  · rintro s1 t1 rfl rfl ht1
    unfold perform_get_instruction_text
    rw [show pyIndex (op :: rest) 0 = .ok op from rfl]
    simp [hop, ht1]
  · rintro s1 s2 t1 t2 rfl rfl ht1 ht2
    unfold perform_get_instruction_text
    rw [show pyIndex (op :: rest) 0 = .ok op from rfl]
    simp [hop, ht1, ht2]

/-- C9 (witness): rendering opcode 0x06 (mnemonic "LD", operands "B" and
"d8") with operand byte 0x2a emits exactly the five tokens in order. -/
theorem c9_token_layout_witness :
    perform_get_instruction_text sampleOpcodes [0x06, 0x2a] 0 =
      .ok ([⟨.InstructionToken, "ld", none⟩,
            ⟨.OperandSeparatorToken, "    ", none⟩,
            ⟨.RegisterToken, "b", none⟩,
            ⟨.OperandSeparatorToken, ", ", none⟩,
            ⟨.IntegerToken, "0x2a", some 0x2a⟩], 2) :=
  (c9_token_layout sampleOpcodes ("LD") 2 (some ("B")) (some ("d8")) 0x06 [0x2a] 0
      rfl).2.2 ("B") ("d8") ⟨.RegisterToken, "b", none⟩ ⟨.IntegerToken, "0x2a", some 0x2a⟩
    rfl rfl rfl rfl

/-- C8 (counterexample): at address 0xffff the conditional relative jump 0x28
with displacement byte 0xff produces targets 65792 and 65537, both above
65535: branch targets are not reduced modulo 65536. -/
theorem c8_unwrapped_counterexample :
    perform_get_instruction_info sampleOpcodes [0x28, 0xff] 0xffff =
      .ok ⟨2, [⟨.TrueBranch, some 65792⟩, ⟨.FalseBranch, some 65537⟩]⟩ ∧
    ¬ ((65792 : Int) ≤ 65535) :=
  ⟨rfl, by decide⟩

/-- C8 (amended): for a 16-bit address and byte-valued input data, every
branch target the resolver produces is a plain unwrapped integer in the range
-254 .. 65792; no modulo-65536 reduction is applied, so targets may exceed
65535 (and may be negative for backward relative jumps near address 0). -/
theorem c8_target_bounds (opcodes : Nat → Option OpcodeEntry) (data : List Nat)
    (addr : Int) (h0 : 0 ≤ addr) (h1 : addr ≤ 65535)
    (hdata : ∀ x ∈ data, x < 256) (info : InstructionInfo)
    (h : perform_get_instruction_info opcodes data addr = .ok info)
    (br : Branch) (hbr : br ∈ info.branches) (t : Int)
    (ht : br.target = some t) : -254 ≤ t ∧ t ≤ 65792 := by
  unfold perform_get_instruction_info at h
  rcases data with _ | ⟨op, _ | ⟨a, _ | ⟨b, rest⟩⟩⟩
  · rw [show pyIndex ([] : List Nat) 0 = .error Err.IndexError from rfl] at h
    simp at h
  · rw [show pyIndex [op] 0 = .ok op from rfl] at h
    dsimp only at h
    cases hop : opcodes op with
    | none => rw [hop] at h; simp at h
    | some e =>
      rw [hop] at h
      dsimp only at h
      rw [show unpack_B (pySlice [op] 1 2) = .error Err.StructError from rfl,
          show unpack_H (pySlice [op] 1 3) = .error Err.StructError from rfl] at h
      dsimp only at h
      split_ifs at h
      · injection h with h2
        subst h2
        simp at hbr
        subst hbr
        simp at ht
        omega
      · injection h with h2
        subst h2
        simp at hbr
        subst hbr
        simp at ht
      · injection h with h2
        subst h2
        simp at hbr
  · have ha : a < 256 := hdata a (by simp)
    rw [show pyIndex [op, a] 0 = .ok op from rfl] at h
    dsimp only at h
    cases hop : opcodes op with
    | none => rw [hop] at h; simp at h
    | some e =>
      rw [hop] at h
      dsimp only at h
      rw [show unpack_B (pySlice [op, a] 1 2) = .ok a from rfl,
          show unpack_H (pySlice [op, a] 1 3) = .error Err.StructError from rfl] at h
      dsimp only at h
      split_ifs at h
      · injection h with h2
        subst h2
        simp at hbr
        rcases hbr with rfl | rfl
        · simp at ht
          omega
        · simp at ht
          omega
      · injection h with h2
        subst h2
        simp at hbr
        rcases hbr with rfl | rfl
        · simp at ht
          omega
        · simp [jrTarget, pyNotAnd0xff] at ht
          omega
      · injection h with h2
        subst h2
        simp at hbr
        subst hbr
        simp [jrTarget, pyNotAnd0xff] at ht
        omega
      · injection h with h2
        subst h2
        simp at hbr
        subst hbr
        simp at ht
        omega
      · injection h with h2
        subst h2
        simp at hbr
        subst hbr
        simp at ht
      · injection h with h2
        subst h2
        simp at hbr
  · have ha : a < 256 := hdata a (by simp)
    have hb : b < 256 := hdata b (by simp)
    rw [show pyIndex (op :: a :: b :: rest) 0 = .ok op from rfl] at h
    dsimp only at h
    cases hop : opcodes op with
    | none => rw [hop] at h; simp at h
    | some e =>
      rw [hop] at h
      dsimp only at h
      rw [show unpack_B (pySlice (op :: a :: b :: rest) 1 2) = .ok a from rfl,
          show unpack_H (pySlice (op :: a :: b :: rest) 1 3) =
            .ok (a + 256 * b) from rfl] at h
      dsimp only at h
      split_ifs at h
      · injection h with h2
        subst h2
        simp at hbr
        rcases hbr with rfl | rfl
        · simp at ht
          omega
        · simp at ht
          omega
      · injection h with h2
        subst h2
        simp at hbr
        rcases hbr with rfl | rfl
        · simp at ht
          omega
        · simp [jrTarget, pyNotAnd0xff] at ht
          omega
      · injection h with h2
        subst h2
        simp at hbr
        subst hbr
        simp [jrTarget, pyNotAnd0xff] at ht
        omega
      · injection h with h2
        subst h2
        simp at hbr
        subst hbr
        simp at ht
        omega
      · injection h with h2
        subst h2
        simp at hbr
        rcases hbr with rfl | rfl
        · simp at ht
          omega
        · simp at ht
          omega
      · injection h with h2
        subst h2
        simp at hbr
        rcases hbr with rfl | rfl
        · simp at ht
          omega
        · simp at ht
          omega
      · injection h with h2
        subst h2
        simp at hbr
        subst hbr
        simp at ht
        omega
      · injection h with h2
        subst h2
        simp at hbr
        subst hbr
        simp at ht
      · injection h with h2
        subst h2
        simp at hbr
        subst hbr
        simp at ht
        omega
      · injection h with h2
        subst h2
        simp at hbr

/-- C8 (witness): the amended bounds applied to the conditional relative jump
0x28 with displacement 0xff at address 0xffff, whose taken-branch target is
exactly the upper bound 65792. -/
theorem c8_target_bounds_witness :
    (0 : Int) ≤ 0xffff ∧ (∀ x ∈ [0x28, 0xff], x < 256) ∧
    (-254 ≤ (65792 : Int) ∧ (65792 : Int) ≤ 65792) :=
  ⟨by decide, by decide,
   c8_target_bounds sampleOpcodes [0x28, 0xff] 0xffff (by decide) (by decide)
     (by decide) ⟨2, [⟨.TrueBranch, some 65792⟩, ⟨.FalseBranch, some 65537⟩]⟩ rfl
     ⟨.TrueBranch, some 65792⟩ (by decide) 65792 rfl⟩

/-- C10: an operand descriptor that contains an 8-bit data tag (d8, r8 or a8)
without starting with one is rendered as a `PossibleAddressToken` whose value
is the raw second byte and whose text uses the four-hex-digit "0x%.4x"
format rather than the two-hex-digit format of the exact tags. -/
theorem c10_deref8_possible_address (operand : String) (d0 d1 : Nat)
    (rest : List Nat) (hs : searchDRA8 operand = true)
    (hm : matchDRA8 operand = false) :
    get_token operand (d0 :: d1 :: rest) =
      .ok ⟨.PossibleAddressToken, "0x" ++ pyHexPad 4 d1, some d1⟩ := by
  unfold get_token
  rw [show pyIndex (d0 :: d1 :: rest) 1 = .ok d1 from rfl]
  simp [hs, hm]

/-- C10 (witness): the dereferenced descriptor "(a8)" with operand byte 0x47
renders as a possible-address token with four-digit text "0x0047". -/
theorem c10_deref8_possible_address_witness :
    get_token ("(a8)") [0xe0, 0x47] =
      .ok ⟨.PossibleAddressToken, "0x0047", some 0x47⟩ :=
  c10_deref8_possible_address ("(a8)") 0xe0 0x47 [] rfl rfl

end BnGBA
